import Mathlib

/-!
Verification of the parsing and gap-detection core of `arrivista_db.py`.

The Python source is shallowly embedded: pure functions become Lean
functions; Python exceptions (`ValueError` from `min()`/`max()` on an empty
sequence, `TypeError` from comparing `None` with an `int`) are modelled with
`Except PyError`.  Python `int` is modelled by `Int` (by `Nat` inside the
digit scanner, where only non-negative values arise); `None`-able values by
`Option`.  The scanner is embedded twice: `extract_issue_numbers` classifies
digits with ASCII `Char.isDigit` and is total — adequate for inputs without
non-ASCII digit-class characters — while `extract_issue_numbers_exc` also
models that CPython's `str.isdigit` accepts digit-class characters such as
the superscript Unicode two for which `int(c)` raises `ValueError`, so the
faithful scanner can raise.  The two are proved to agree (`claim4_amended`)
on every input whose characters classify identically under both.
-/

/-! ## Identifier parser (`extract_issue_numbers` and its helpers) -/

/-- Scanner states, mirroring the module constants `STATE_PREFIX = 0`,
`STATE_NUMBER = 1`, `STATE_SEPARATOR = 2`, `STATE_SUFFIX = 3`. -/
inductive ScanState where
  | pre
  | num
  | sep
  | suf
deriving DecidableEq

/-- The local variables of the `extract_issue_numbers` loop:
`state`, `cur`, `prev`, `min`, `max`, `inv`, `suffix` (fields `mn`/`mx`
model the Python locals `min`/`max`). -/
structure ParseSt where
  state : ScanState
  cur : Nat
  prev : Nat
  mn : Option Nat
  mx : Option Nat
  inv : Bool
  suffix : List Char
deriving DecidableEq

/-- Source `_check_min_max(num, min, max)` from the source: keep `min` iff it is set
and `num >= min`, otherwise take `num`; symmetrically for `max`. -/
def _check_min_max (num : Nat) (mn mx : Option Nat) : Option Nat × Option Nat :=
  (match mn with
   | some m => if num ≥ m then some m else some num
   | none => some num,
   match mx with
   | some m => if num ≤ m then some m else some num
   | none => some num)

/-- Source `_check_prev(cur, prev)` from the source: the new `prev` is `cur`, the new
`inv` flag is `cur < prev`. -/
def _check_prev (cur prev : Nat) : Nat × Bool :=
  (cur, decide (cur < prev))

/-- The three-line "close the current number" sequence that the source repeats
at a separator, at a suffix start, and at end of input:
`min, max = _check_min_max(cur, min, max); prev, inv = _check_prev(cur, prev)`. -/
def closeRun (st : ParseSt) : ParseSt :=
  { st with
      mn := (_check_min_max st.cur st.mn st.mx).1
      mx := (_check_min_max st.cur st.mn st.mx).2
      prev := (_check_prev st.cur st.prev).1
      inv := (_check_prev st.cur st.prev).2 }

/-- One iteration of the `for c in s` loop of `extract_issue_numbers`,
classifying digits with ASCII `Char.isDigit`.  This total step is the
restriction of the faithful step `pstepExc` (below) to characters that
classify identically under `str.isdigit` and `Char.isDigit`; on non-ASCII
digit-class characters such as the superscript two, where CPython's
`int(c)` raises, only `pstepExc` is faithful. -/
def pstep (st : ParseSt) (c : Char) : ParseSt :=
  if st.state = ScanState.suf then
    { st with suffix := st.suffix ++ [c] }
  else if c.isDigit then
    if st.state = ScanState.pre ∨ st.state = ScanState.sep then
      { st with state := ScanState.num, cur := c.toNat - Char.toNat '0' }
    else
      { st with cur := st.cur * 10 + (c.toNat - Char.toNat '0') }
  else if c = '/' ∨ c = '-' then
    if st.state = ScanState.num then
      { closeRun st with state := ScanState.sep }
    else st
  else
    if st.state = ScanState.num then
      { closeRun st with state := ScanState.suf, suffix := [c] }
    else st

/-- Initial loop state: `state = STATE_PREFIX`, `cur, prev = 0, 0`,
`min, max = None, None`, `inv = False`, `suffix = ''`. -/
def initSt : ParseSt :=
  { state := ScanState.pre, cur := 0, prev := 0, mn := none, mx := none,
    inv := false, suffix := [] }

/-- The end-of-input step: `if state == STATE_NUMBER:` close once more. -/
def finishSt (st : ParseSt) : ParseSt :=
  if st.state = ScanState.num then closeRun st else st

/-- Python's `str.strip()` whitespace test restricted to CPython's six ASCII
whitespace characters; the Unicode whitespace characters that `str.strip()`
also removes (e.g. no-break space) are outside the model. -/
def isPySpace (c : Char) : Bool :=
  c = ' ' || c = '\t' || c = '\n' || c = '\x0d' || c = '\x0b' || c = '\x0c'

/-- Strip leading and trailing whitespace, then repack as a string. -/
def pyStrip (l : List Char) : String :=
  String.mk (((l.dropWhile isPySpace).reverse.dropWhile isPySpace).reverse)

/-- Result type of `extract_issue_numbers`.  The function is dynamically
typed in Python and returns a 3-tuple `(None, None, None)` for an empty
input but a 4-tuple `(min, max, inv, suffix)` otherwise; the two shapes are
the two constructors. -/
inductive ExtractResult where
  | triple (a b c : Option Nat)
  | quad (mn mx : Option Nat) (inv : Bool) (suffix : String)
deriving DecidableEq

/-- The scanner state after the whole loop and the end-of-input close. -/
def runScan (s : String) : ParseSt :=
  finishSt (s.data.foldl pstep initSt)

/-- Source `extract_issue_numbers(s)` from the source. -/
def extract_issue_numbers (s : String) : ExtractResult :=
  if s.data.length = 0 then ExtractResult.triple none none none
  else
    ExtractResult.quad (runScan s).mn (runScan s).mx (runScan s).inv
      (pyStrip (runScan s).suffix)

/-- One loop iteration instrumented with the list of values closed so far:
a value is closed exactly when the scanner is in the NUMBER state and meets
a non-digit character (the separator branch and the suffix branch of the
source both run the close sequence). -/
def cstep (p : ParseSt × List Nat) (c : Char) : ParseSt × List Nat :=
  (pstep p.1 c,
   if p.1.state = ScanState.num ∧ c.isDigit = false then p.2 ++ [p.1.cur] else p.2)

/-- The instrumented run of the whole loop. -/
def runClosed (s : String) : ParseSt × List Nat :=
  s.data.foldl cstep (initSt, [])

/-- The number runs of `s` that the scanner closes, in the order it closes
them (including the final end-of-input close). -/
def closedNumbers (s : String) : List Nat :=
  if (runClosed s).1.state = ScanState.num then (runClosed s).2 ++ [(runClosed s).1.cur]
  else (runClosed s).2

/-- One `_check_min_max` step on the running minimum alone. -/
def accMin (acc : Option Nat) (v : Nat) : Option Nat :=
  match acc with
  | none => some v
  | some m => some (min m v)

/-- One `_check_min_max` step on the running maximum alone. -/
def accMax (acc : Option Nat) (v : Nat) : Option Nat :=
  match acc with
  | none => some v
  | some m => some (max m v)

/-- The running minimum of a list of closed values. -/
def listMin (l : List Nat) : Option Nat :=
  l.foldl accMin none

/-- The running maximum of a list of closed values. -/
def listMax (l : List Nat) : Option Nat :=
  l.foldl accMax none

/-- The inverted flag a list of closed values produces: the last closed value
is strictly below the one closed immediately before it (with the source's
initial `prev = 0` standing in when fewer than two values were closed). -/
def invOf (l : List Nat) : Bool :=
  decide (l.getLastD 0 < l.dropLast.getLastD 0)

/-- Modelled from the spec: the data model's `NormalizedRange` is the
four-field shape `(min, max, inverted, suffix)`; the 3-tuple that the source
returns for an empty input is not of that shape. -/
def isNormalizedRange : ExtractResult → Bool
  | ExtractResult.quad _ _ _ _ => true
  | ExtractResult.triple _ _ _ => false

/-! ## Entities and the gap-detection operations -/

/-- Python exceptions that the embedded code can raise.  `valueError` is
raised by `min()`/`max()` on an empty sequence, `typeError` by an order
comparison or arithmetic involving `None`.  `configurationError` never
occurs in the source; it names the error class that the specification's
error-handling design prescribes, so that its absence can be stated. -/
inductive PyError where
  | valueError
  | typeError
  | configurationError
deriving DecidableEq

/-! ## The faithful scanner, with the raise path of CPython's `int()` -/

/-- Modelled from CPython's `str.isdigit`: beyond the ASCII decimal digits it
accepts digit-class characters; the model carries the superscript digits one,
two and three (U+00B9, U+00B2, U+00B3), which `int()` rejects.  Other Unicode
digit-class characters (e.g. Arabic-Indic decimal digits, which `int()`
converts) are outside the model. -/
def pyIsDigit (c : Char) : Bool :=
  c.isDigit || c = '¹' || c = '²' || c = '³'

/-- Modelled from CPython's `int(c)` for a single `isdigit` character: its
value for a decimal digit, and a `ValueError` for a digit-class character
with no decimal value, such as a superscript. -/
def pyIntOfChar (c : Char) : Except PyError Nat :=
  if c.isDigit then Except.ok (c.toNat - Char.toNat '0')
  else Except.error PyError.valueError

/-- One iteration of the `for c in s` loop with the faithful digit
classification and the raising conversion: identical to `pstep` except that
`int(c)` on lines 61 and 63 of the source can raise. -/
def pstepExc (st : ParseSt) (c : Char) : Except PyError ParseSt :=
  if st.state = ScanState.suf then
    Except.ok { st with suffix := st.suffix ++ [c] }
  else if pyIsDigit c then
    if st.state = ScanState.pre ∨ st.state = ScanState.sep then
      match pyIntOfChar c with
      | Except.error e => Except.error e
      | Except.ok d => Except.ok { st with state := ScanState.num, cur := d }
    else
      match pyIntOfChar c with
      | Except.error e => Except.error e
      | Except.ok d => Except.ok { st with cur := st.cur * 10 + d }
  else if c = '/' ∨ c = '-' then
    if st.state = ScanState.num then
      Except.ok { closeRun st with state := ScanState.sep }
    else Except.ok st
  else
    if st.state = ScanState.num then
      Except.ok { closeRun st with state := ScanState.suf, suffix := [c] }
    else Except.ok st

/-- The faithful loop, aborted by the first raised exception. -/
def foldExc : ParseSt → List Char → Except PyError ParseSt
  | st, [] => Except.ok st
  | st, c :: cs =>
    match pstepExc st c with
    | Except.error e => Except.error e
    | Except.ok st2 => foldExc st2 cs

/-- Source `extract_issue_numbers(s)` under the faithful scanner: the raise
path is kept instead of being erased by an ASCII-only digit test. -/
def extract_issue_numbers_exc (s : String) : Except PyError ExtractResult :=
  if s.data.length = 0 then Except.ok (ExtractResult.triple none none none)
  else
    match foldExc initSt s.data with
    | Except.error e => Except.error e
    | Except.ok st =>
      Except.ok (ExtractResult.quad (finishSt st).mn (finishSt st).mx (finishSt st).inv
        (pyStrip (finishSt st).suffix))

/-- Source `Issue` row.  Only the columns consulted by the gap-detection operations
are modelled (`year`, `num_min`, `num_max`); `id`, `magazine_id`,
`issue_number`, `copies`, `is_new`, `inv` and `suffix` are never read by
`get_current_issues_for_numbering`, `get_all_issues_for_numbering`,
`_contains_issue` or `_get_missing_numbers`. -/
structure Issue where
  year : Option Int
  num_min : Option Int
  num_max : Option Int
deriving DecidableEq

/-- Source `Numbering` row (the columns read by range expansion). -/
structure Numbering where
  from_year : Option Int
  to_year : Option Int
  is_yearly : Bool
  from_number : Option Int
  to_number : Option Int
deriving DecidableEq

/-- Source `Magazine` with its ordered `issues` and `numberings` relationships. -/
structure Magazine where
  issues : List Issue
  numberings : List Numbering
deriving DecidableEq

/-- Source `_check_year_in_interval(year, min, max)` from the source:
`(min is None or year >= min) and (max is None or year <= max)`, with
Python's short-circuit evaluation and a `TypeError` whenever `None` meets an
`int` in an order comparison. -/
def _check_year_in_interval (year mn mx : Option Int) : Except PyError Bool :=
  match mn with
  | none =>
    match mx with
    | none => Except.ok true
    | some b =>
      match year with
      | none => Except.error PyError.typeError
      | some y => Except.ok (decide (y ≤ b))
  | some a =>
    match year with
    | none => Except.error PyError.typeError
    | some y =>
      if y ≥ a then
        match mx with
        | none => Except.ok true
        | some b => Except.ok (decide (y ≤ b))
      else Except.ok false

/-- The comparison loop of Python's builtin `min` over possibly-`None`
values: the accumulator starts at the first element; each later element is
compared with `<`, which raises `TypeError` as soon as a `None` is
involved. -/
def pyMinOptLoop : Option Int → List (Option Int) → Except PyError (Option Int)
  | acc, [] => Except.ok acc
  | acc, x :: rest =>
    match acc, x with
    | some a, some b => pyMinOptLoop (some (if b < a then b else a)) rest
    | _, _ => Except.error PyError.typeError

/-- The analogous loop for the builtin `max`. -/
def pyMaxOptLoop : Option Int → List (Option Int) → Except PyError (Option Int)
  | acc, [] => Except.ok acc
  | acc, x :: rest =>
    match acc, x with
    | some a, some b => pyMaxOptLoop (some (if b > a then b else a)) rest
    | _, _ => Except.error PyError.typeError

/-- Source `_get_min_year(issues) = min(issue.year for issue in issues)`:
`ValueError` on an empty collection. -/
def _get_min_year (issues : List Issue) : Except PyError (Option Int) :=
  match issues with
  | [] => Except.error PyError.valueError
  | i :: rest => pyMinOptLoop i.year (rest.map (fun j => j.year))

/-- Source `_get_max_year(issues) = max(issue.year for issue in issues)`. -/
def _get_max_year (issues : List Issue) : Except PyError (Option Int) :=
  match issues with
  | [] => Except.error PyError.valueError
  | i :: rest => pyMaxOptLoop i.year (rest.map (fun j => j.year))

/-- Source `_get_min_number(issues)`: `min` over the `num_min` values that are not
`None`; `ValueError` when no issue has a parsed `num_min`. -/
def _get_min_number (issues : List Issue) : Except PyError Int :=
  match issues.filterMap (fun i => i.num_min) with
  | [] => Except.error PyError.valueError
  | n :: rest => Except.ok (rest.foldl (fun a b => if b < a then b else a) n)

/-- Source `_get_max_number(issues)`: `max` over the non-`None` `num_max` values. -/
def _get_max_number (issues : List Issue) : Except PyError Int :=
  match issues.filterMap (fun i => i.num_max) with
  | [] => Except.error PyError.valueError
  | n :: rest => Except.ok (rest.foldl (fun a b => if b > a then b else a) n)

/-- The per-issue condition of `_contains_issue`: `num_min` and `num_max`
both set, `num_min <= number <= num_max`, and `year is None or issue.year ==
year` (Python's `==` between `None` and an `int` is simply `False`, which
`Option` equality models). -/
def containsPred (year : Option Int) (number : Int) (issue : Issue) : Bool :=
  match issue.num_min, issue.num_max with
  | some mn, some mx =>
    decide (mn ≤ number) && decide (number ≤ mx) &&
      (match year with
       | none => true
       | some y => decide (issue.year = some y))
  | _, _ => false

/-- Source `_contains_issue(issues, year, number)` from the source:
`next((True for issue in issues if ...), False)`, i.e. some issue satisfies
the condition. -/
def _contains_issue (issues : List Issue) (year : Option Int) (number : Int) : Bool :=
  issues.any (containsPred year number)

/-- Python's `range(lo, hi)` as a list of integers. -/
def intRange (lo hi : Int) : List Int :=
  (List.range (hi - lo).toNat).map (fun (n : Nat) => lo + (n : Int))

/-- The year filter of `get_current_issues_for_numbering`, i.e. the list
comprehension `[issue for issue in self.issues if
_check_year_in_interval(issue.year, from_year, to_year)]`, evaluated left to
right with the first raised exception aborting the comprehension. -/
def filterIssuesLoop (fy ty : Option Int) : List Issue → Except PyError (List Issue)
  | [] => Except.ok []
  | i :: rest =>
    match _check_year_in_interval i.year fy ty with
    | Except.error e => Except.error e
    | Except.ok b =>
      match filterIssuesLoop fy ty rest with
      | Except.error e => Except.error e
      | Except.ok r => Except.ok (if b then i :: r else r)

/-- Source `Magazine.get_current_issues_for_numbering(self, numbering)`.  The two
preceding lines of the source (`from_year = None if numbering.from_year is
None else numbering.from_year`, likewise `to_year`) are identity copies. -/
def get_current_issues_for_numbering (mag : Magazine) (nb : Numbering) :
    Except PyError (List Issue) :=
  filterIssuesLoop nb.from_year nb.to_year mag.issues

/-- The resolution `_get_min_year(current_issues) if numbering.from_year is
None else numbering.from_year` on line 113 of the source. -/
def yearlyFromYear (nb : Numbering) (current : List Issue) : Except PyError (Option Int) :=
  match nb.from_year with
  | none => _get_min_year current
  | some y => Except.ok (some y)

/-- The resolution of `to_year` on line 114 of the source. -/
def yearlyToYear (nb : Numbering) (current : List Issue) : Except PyError (Option Int) :=
  match nb.to_year with
  | none => _get_max_year current
  | some y => Except.ok (some y)

/-- The resolution of `from_number` on line 119 (continuous mode). -/
def contFromNumber (nb : Numbering) (current : List Issue) : Except PyError Int :=
  match nb.from_number with
  | none => _get_min_number current
  | some n => Except.ok n

/-- The resolution of `to_number` on line 120 (continuous mode). -/
def contToNumber (nb : Numbering) (current : List Issue) : Except PyError Int :=
  match nb.to_number with
  | none => _get_max_number current
  | some n => Except.ok n

/-- Source `Magazine.get_all_issues_for_numbering(self, numbering, current_issues)`
with `current_issues` passed explicitly (as `_get_missing_numbers` does; the
`None` default of the Python signature merely recomputes the year filter).
In yearly mode a resolved year bound that is still `None` (a single owned
issue with `year = None`) makes `range()` raise `TypeError`. -/
def get_all_issues_for_numbering (nb : Numbering) (current : List Issue) :
    Except PyError (List (Option Int × Int)) :=
  if nb.is_yearly then
    match yearlyFromYear nb current with
    | Except.error e => Except.error e
    | Except.ok fy =>
      match yearlyToYear nb current with
      | Except.error e => Except.error e
      | Except.ok ty =>
        match fy, ty with
        | some fy, some ty =>
          Except.ok ((intRange fy (ty + 1)).flatMap (fun y =>
            (intRange (nb.from_number.getD 1) (nb.to_number.getD 12 + 1)).map
              (fun n => (some y, n))))
        | _, _ => Except.error PyError.typeError
  else
    match contFromNumber nb current with
    | Except.error e => Except.error e
    | Except.ok fn =>
      match contToNumber nb current with
      | Except.error e => Except.error e
      | Except.ok tn =>
        Except.ok ((intRange fn (tn + 1)).map (fun n => ((none : Option Int), n)))

/-- Source `Magazine._get_missing_numbers(self, numbering)`. -/
def _get_missing_numbers (mag : Magazine) (nb : Numbering) :
    Except PyError (List (Option Int × Int)) :=
  match get_current_issues_for_numbering mag nb with
  | Except.error e => Except.error e
  | Except.ok current =>
    match get_all_issues_for_numbering nb current with
    | Except.error e => Except.error e
    | Except.ok all_numbers =>
      Except.ok (all_numbers.filter (fun p => ! _contains_issue current p.1 p.2))

/-- The accumulation loop of `get_missing_numbers`: rules in stored order,
left to right, the first raised exception aborting the loop. -/
def missingLoop (mag : Magazine) : List Numbering → Except PyError (List (Option Int × Int))
  | [] => Except.ok []
  | nb :: rest =>
    match _get_missing_numbers mag nb with
    | Except.error e => Except.error e
    | Except.ok m =>
      match missingLoop mag rest with
      | Except.error e => Except.error e
      | Except.ok r => Except.ok (m ++ r)

/-- Source `Magazine.get_missing_numbers(self)`. -/
def get_missing_numbers (mag : Magazine) : Except PyError (List (Option Int × Int)) :=
  missingLoop mag mag.numberings

/-! ## Proof-side definitions and concrete instances -/

/-- The loop invariant of the scanner: the running `min`, `max`, `prev` and
`inv` locals are determined by the list of values closed so far. -/
def MInv (st : ParseSt) (l : List Nat) : Prop :=
  st.mn = listMin l ∧ st.mx = listMax l ∧ st.prev = l.getLastD 0 ∧ st.inv = invOf l

/-- Yearly rule `2020..2021`, numbers `1..12` (the specification's worked
yearly-expansion example). -/
def nbC9 : Numbering :=
  { from_year := some 2020, to_year := some 2021, is_yearly := true,
    from_number := some 1, to_number := some 12 }

/-- A magazine owning zero issues and only the rule `nbC9`. -/
def magC9 : Magazine := { issues := [], numberings := [nbC9] }

/-- A closed yearly rule that expands without consulting the issues. -/
def nbC3good : Numbering :=
  { from_year := some 2020, to_year := some 2020, is_yearly := true,
    from_number := some 1, to_number := some 2 }

/-- A yearly rule with every bound open. -/
def nbC3bad : Numbering :=
  { from_year := none, to_year := none, is_yearly := true,
    from_number := none, to_number := none }

/-- A magazine with no issues whose first rule expands fine and whose second
rule needs an extremum of the empty issue collection. -/
def magC3 : Magazine := { issues := [], numberings := [nbC3good, nbC3bad] }

/-- A yearly rule whose `from_year` is open. -/
def nbC2 : Numbering :=
  { from_year := none, to_year := some 2021, is_yearly := true,
    from_number := some 1, to_number := some 12 }

/-- A yearly rule with every bound open. -/
def nbC2x : Numbering :=
  { from_year := none, to_year := none, is_yearly := true,
    from_number := none, to_number := none }

/-- An issue of year 2020 whose identifier parsed to the range `5..6`. -/
def iC5 : Issue := { year := some 2020, num_min := some 5, num_max := some 6 }

/-- A yearly rule for the single year 2020, numbers `1..12`. -/
def nbC5 : Numbering :=
  { from_year := some 2020, to_year := some 2020, is_yearly := true,
    from_number := some 1, to_number := some 12 }

/-- A magazine owning `iC5` and the rule `nbC5`. -/
def magC5 : Magazine := { issues := [iC5], numberings := [nbC5] }

/-- An issue of year 2019 whose identifier parsed to the range `5..5`. -/
def iC5x : Issue := { year := some 2019, num_min := some 5, num_max := some 5 }

/-- A continuous rule restricted to the year 2020, numbers `1..10`. -/
def nbC5x : Numbering :=
  { from_year := some 2020, to_year := some 2020, is_yearly := false,
    from_number := some 1, to_number := some 10 }

/-- A magazine owning only the out-of-window issue `iC5x` and the rule
`nbC5x`. -/
def magC5x : Magazine := { issues := [iC5x], numberings := [nbC5x] }

/-- An issue whose `year` column is `NULL`. -/
def iC10 : Issue := { year := none, num_min := some 1, num_max := some 2 }

/-- A rule with `from_year` set (so the year filter compares years). -/
def nbC10 : Numbering :=
  { from_year := some 2000, to_year := none, is_yearly := true,
    from_number := none, to_number := none }

/-- A rule with both year bounds open. -/
def nbC10open : Numbering :=
  { from_year := none, to_year := none, is_yearly := true,
    from_number := none, to_number := none }

/-- A magazine owning the `year = NULL` issue and the rule `nbC10`. -/
def magC10 : Magazine := { issues := [iC10], numberings := [nbC10] }

/-! ## Sanity checks: the specification's worked parser examples -/

example : extract_issue_numbers "" = ExtractResult.triple none none none := rfl

example : extract_issue_numbers "12" = ExtractResult.quad (some 12) (some 12) false "" := by
  decide

example : extract_issue_numbers "12/13" = ExtractResult.quad (some 12) (some 13) false "" := by
  decide

example : extract_issue_numbers "7bis" = ExtractResult.quad (some 7) (some 7) false "bis" := by
  decide

example : extract_issue_numbers "5-6 ter" = ExtractResult.quad (some 5) (some 6) false "ter" := by
  decide

/-! ## The scanner invariant -/

theorem if_min_some (v m : Nat) : (if v ≥ m then some m else some v) = some (min m v) := by
  by_cases h : v ≥ m
  · rw [if_pos h]
    exact congrArg some (min_eq_left (by omega)).symm
  · rw [if_neg h]
    exact congrArg some (min_eq_right (by omega)).symm

theorem if_max_some (v m : Nat) : (if v ≤ m then some m else some v) = some (max m v) := by
  by_cases h : v ≤ m
  · rw [if_pos h]
    exact congrArg some (max_eq_left (by omega)).symm
  · rw [if_neg h]
    exact congrArg some (max_eq_right (by omega)).symm

theorem check_min_max_eq (v : Nat) (mn mx : Option Nat) :
    _check_min_max v mn mx = (accMin mn v, accMax mx v) := by
  cases mn <;> cases mx <;>
    simp [_check_min_max, accMin, accMax, if_min_some, if_max_some]

theorem closeRun_eq (st : ParseSt) :
    closeRun st = { st with mn := accMin st.mn st.cur, mx := accMax st.mx st.cur,
                            prev := st.cur, inv := decide (st.cur < st.prev) } := by
  simp [closeRun, _check_prev, check_min_max_eq]

theorem getLastD_snoc (l : List Nat) (v d : Nat) : (l ++ [v]).getLastD d = v := by
  induction l with
  | nil => rfl
  | cons a t ih =>
    cases t with
    | nil => rfl
    | cons b t2 => simpa using ih

theorem dropLast_snoc (l : List Nat) (v : Nat) : (l ++ [v]).dropLast = l := by
  induction l with
  | nil => rfl
  | cons a t ih =>
    cases t with
    | nil => rfl
    | cons b t2 => simpa using ih

theorem listMin_snoc (l : List Nat) (v : Nat) : listMin (l ++ [v]) = accMin (listMin l) v := by
  simp [listMin, List.foldl_append]

theorem listMax_snoc (l : List Nat) (v : Nat) : listMax (l ++ [v]) = accMax (listMax l) v := by
  simp [listMax, List.foldl_append]

theorem invOf_snoc (l : List Nat) (v : Nat) : invOf (l ++ [v]) = decide (v < l.getLastD 0) := by
  simp [invOf, getLastD_snoc, dropLast_snoc]

theorem minv_closeRun (st : ParseSt) (l : List Nat) (h : MInv st l) :
    MInv (closeRun st) (l ++ [st.cur]) := by
  obtain ⟨h1, h2, h3, h4⟩ := h
  rw [closeRun_eq]
  refine ⟨?_, ?_, ?_, ?_⟩
  · simp [listMin_snoc, h1]
  · simp [listMax_snoc, h2]
  · simp [getLastD_snoc]
  · simp [invOf_snoc, h3]

theorem pstep_close (st : ParseSt) (c : Char) (h1 : st.state = ScanState.num)
    (h2 : c.isDigit = false) :
    (pstep st c).mn = (closeRun st).mn ∧ (pstep st c).mx = (closeRun st).mx ∧
    (pstep st c).prev = (closeRun st).prev ∧ (pstep st c).inv = (closeRun st).inv := by
  by_cases hsep : c = '/' ∨ c = '-' <;> simp [pstep, h1, h2, hsep]

theorem pstep_nonclose (st : ParseSt) (c : Char)
    (h : ¬(st.state = ScanState.num ∧ c.isDigit = false)) :
    (pstep st c).mn = st.mn ∧ (pstep st c).mx = st.mx ∧
    (pstep st c).prev = st.prev ∧ (pstep st c).inv = st.inv := by
  by_cases hsuf : st.state = ScanState.suf
  · simp [pstep, hsuf]
  · by_cases hdig : c.isDigit = true
    · by_cases hps : st.state = ScanState.pre ∨ st.state = ScanState.sep <;>
        simp [pstep, hsuf, hdig, hps]
    · have hd2 : c.isDigit = false := by
        cases hd : c.isDigit
        · rfl
        · exact absurd hd hdig
      have hnum : ¬ st.state = ScanState.num := fun hn => h ⟨hn, hd2⟩
      by_cases hsep : c = '/' ∨ c = '-' <;> simp [pstep, hsuf, hd2, hsep, hnum]

theorem pstep_minv (st : ParseSt) (l : List Nat) (c : Char) (h : MInv st l) :
    MInv (pstep st c)
      (if st.state = ScanState.num ∧ c.isDigit = false then l ++ [st.cur] else l) := by
  by_cases hc : st.state = ScanState.num ∧ c.isDigit = false
  · rw [if_pos hc]
    obtain ⟨hf1, hf2, hf3, hf4⟩ := pstep_close st c hc.1 hc.2
    have hcl := minv_closeRun st l h
    exact ⟨hf1.trans hcl.1, hf2.trans hcl.2.1, hf3.trans hcl.2.2.1, hf4.trans hcl.2.2.2⟩
  · rw [if_neg hc]
    obtain ⟨hf1, hf2, hf3, hf4⟩ := pstep_nonclose st c hc
    exact ⟨hf1.trans h.1, hf2.trans h.2.1, hf3.trans h.2.2.1, hf4.trans h.2.2.2⟩

theorem foldl_cstep_minv (cs : List Char) :
    ∀ p : ParseSt × List Nat, MInv p.1 p.2 →
      MInv (cs.foldl cstep p).1 (cs.foldl cstep p).2 := by
  induction cs with
  | nil => intro p h; simpa using h
  | cons c t ih =>
    intro p h
    rw [List.foldl_cons]
    exact ih (cstep p c) (pstep_minv p.1 p.2 c h)

theorem foldl_cstep_fst (cs : List Char) :
    ∀ p : ParseSt × List Nat, (cs.foldl cstep p).1 = cs.foldl pstep p.1 := by
  induction cs with
  | nil => intro p; rfl
  | cons c t ih =>
    intro p
    rw [List.foldl_cons, List.foldl_cons]
    exact ih (cstep p c)

theorem minv_init : MInv initSt [] := ⟨rfl, rfl, rfl, rfl⟩

theorem runScan_minv (s : String) : MInv (runScan s) (closedNumbers s) := by
  have h0 : MInv (runClosed s).1 (runClosed s).2 :=
    foldl_cstep_minv s.data (initSt, []) minv_init
  have hfst : (runClosed s).1 = s.data.foldl pstep initSt :=
    foldl_cstep_fst s.data (initSt, [])
  unfold runScan finishSt closedNumbers
  rw [← hfst]
  by_cases hn : (runClosed s).1.state = ScanState.num
  · rw [if_pos hn, if_pos hn]
    exact minv_closeRun _ _ h0
  · rw [if_neg hn, if_neg hn]
    exact h0

theorem extract_eq_quad (s : String) (h : s.data.length ≠ 0) :
    extract_issue_numbers s =
      ExtractResult.quad (runScan s).mn (runScan s).mx (runScan s).inv
        (pyStrip (runScan s).suffix) := by
  unfold extract_issue_numbers
  rw [if_neg h]

theorem extract_nonempty_of_quad (s : String) (mn mx : Option Nat) (b : Bool) (suf : String)
    (h : extract_issue_numbers s = ExtractResult.quad mn mx b suf) :
    s.data.length ≠ 0 := by
  intro h0
  unfold extract_issue_numbers at h
  rw [if_pos h0] at h
  exact ExtractResult.noConfusion h

/-! ## The running minimum and maximum compute the true extremes -/

theorem foldl_accMin_some (t : List Nat) :
    ∀ m : Nat, t.foldl accMin (some m) = some (t.foldl min m) := by
  induction t with
  | nil => intro m; rfl
  | cons v r ih =>
    intro m
    rw [List.foldl_cons, List.foldl_cons]
    exact ih (min m v)

theorem listMin_cons (v : Nat) (t : List Nat) : listMin (v :: t) = some (t.foldl min v) := by
  unfold listMin
  rw [List.foldl_cons]
  exact foldl_accMin_some t v

theorem foldl_accMax_some (t : List Nat) :
    ∀ m : Nat, t.foldl accMax (some m) = some (t.foldl max m) := by
  induction t with
  | nil => intro m; rfl
  | cons v r ih =>
    intro m
    rw [List.foldl_cons, List.foldl_cons]
    exact ih (max m v)

theorem listMax_cons (v : Nat) (t : List Nat) : listMax (v :: t) = some (t.foldl max v) := by
  unfold listMax
  rw [List.foldl_cons]
  exact foldl_accMax_some t v

theorem foldl_nat_min_le (t : List Nat) : ∀ v : Nat, t.foldl min v ≤ v := by
  induction t with
  | nil => intro v; exact Nat.le_refl v
  | cons w r ih =>
    intro v
    rw [List.foldl_cons]
    exact Nat.le_trans (ih (min v w)) (min_le_left v w)

theorem foldl_nat_min_le_mem (t : List Nat) : ∀ v x : Nat, x ∈ t → t.foldl min v ≤ x := by
  induction t with
  | nil => intro v x hx; cases hx
  | cons w r ih =>
    intro v x hx
    rw [List.foldl_cons]
    rcases List.mem_cons.mp hx with rfl | hx
    · exact Nat.le_trans (foldl_nat_min_le r (min v x)) (min_le_right v x)
    · exact ih (min v w) x hx

theorem foldl_nat_min_mem (t : List Nat) :
    ∀ v : Nat, t.foldl min v = v ∨ t.foldl min v ∈ t := by
  induction t with
  | nil => intro v; exact Or.inl rfl
  | cons w r ih =>
    intro v
    rw [List.foldl_cons]
    rcases ih (min v w) with h | h
    · rw [h]
      rcases Nat.le_total v w with hvw | hwv
      · exact Or.inl (min_eq_left hvw)
      · refine Or.inr ?_
        rw [min_eq_right hwv]
        exact List.mem_cons_self w r
    · exact Or.inr (List.mem_cons_of_mem w h)

theorem foldl_nat_max_ge (t : List Nat) : ∀ v : Nat, v ≤ t.foldl max v := by
  induction t with
  | nil => intro v; exact Nat.le_refl v
  | cons w r ih =>
    intro v
    rw [List.foldl_cons]
    exact Nat.le_trans (le_max_left v w) (ih (max v w))

theorem foldl_nat_max_ge_mem (t : List Nat) : ∀ v x : Nat, x ∈ t → x ≤ t.foldl max v := by
  induction t with
  | nil => intro v x hx; cases hx
  | cons w r ih =>
    intro v x hx
    rw [List.foldl_cons]
    rcases List.mem_cons.mp hx with rfl | hx
    · exact Nat.le_trans (le_max_right v x) (foldl_nat_max_ge r (max v x))
    · exact ih (max v w) x hx

theorem foldl_nat_max_mem (t : List Nat) :
    ∀ v : Nat, t.foldl max v = v ∨ t.foldl max v ∈ t := by
  induction t with
  | nil => intro v; exact Or.inl rfl
  | cons w r ih =>
    intro v
    rw [List.foldl_cons]
    rcases ih (max v w) with h | h
    · rw [h]
      rcases Nat.le_total v w with hvw | hwv
      · refine Or.inr ?_
        rw [max_eq_right hvw]
        exact List.mem_cons_self w r
      · exact Or.inl (max_eq_left hwv)
    · exact Or.inr (List.mem_cons_of_mem w h)

theorem listMin_spec (l : List Nat) (a : Nat) (h : listMin l = some a) :
    a ∈ l ∧ ∀ x ∈ l, a ≤ x := by
  cases l with
  | nil => exact Option.noConfusion h
  | cons v t =>
    rw [listMin_cons] at h
    obtain rfl := (Option.some.inj h).symm
    constructor
    · rcases foldl_nat_min_mem t v with h1 | h1
      · rw [h1]; exact List.mem_cons_self v t
      · exact List.mem_cons_of_mem v h1
    · intro x hx
      rcases List.mem_cons.mp hx with rfl | hx
      · exact foldl_nat_min_le t x
      · exact foldl_nat_min_le_mem t v x hx

theorem listMax_spec (l : List Nat) (a : Nat) (h : listMax l = some a) :
    a ∈ l ∧ ∀ x ∈ l, x ≤ a := by
  cases l with
  | nil => exact Option.noConfusion h
  | cons v t =>
    rw [listMax_cons] at h
    obtain rfl := (Option.some.inj h).symm
    constructor
    · rcases foldl_nat_max_mem t v with h1 | h1
      · rw [h1]; exact List.mem_cons_self v t
      · exact List.mem_cons_of_mem v h1
    · intro x hx
      rcases List.mem_cons.mp hx with rfl | hx
      · exact foldl_nat_max_ge t x
      · exact foldl_nat_max_ge_mem t v x hx

/-! ## Claims about the identifier parser -/

/-- C1 (counterexample): for the empty input string the source returns the
3-tuple `(None, None, None)`, which is not the four-field all-empty
`NormalizedRange` `(None, None, False, "")` the claim states. -/
theorem claim1_counterexample :
    extract_issue_numbers "" = ExtractResult.triple none none none ∧
    ExtractResult.triple (none : Option Nat) none none ≠
      ExtractResult.quad none none false "" := by
  exact ⟨rfl, by decide⟩

/-- C1 (amended): for the empty input string, parse returns the three-field
result `(None, None, None)` — not the four-field shape that every non-empty
input receives. -/
theorem claim1_amended :
    extract_issue_numbers "" = ExtractResult.triple none none none := rfl

/-- C4 (counterexample): the parser does raise — on the superscript two,
which `str.isdigit` accepts but `int()` rejects, the faithful scanner
raises `ValueError` — and at the empty input its result is the 3-tuple,
which is not of the four-field `NormalizedRange` shape. -/
theorem claim4_counterexample :
    extract_issue_numbers_exc "²" = Except.error PyError.valueError ∧
    extract_issue_numbers_exc "" = Except.ok (ExtractResult.triple none none none) ∧
    isNormalizedRange (ExtractResult.triple none none none) = false := by
  exact ⟨rfl, rfl, rfl⟩

theorem pstepExc_eq_pstep (st : ParseSt) (c : Char) (h : pyIsDigit c = c.isDigit) :
    pstepExc st c = Except.ok (pstep st c) := by
  by_cases hsuf : st.state = ScanState.suf
  · simp [pstepExc, pstep, hsuf]
  · cases hd : c.isDigit with
    | true =>
      have hpd : pyIsDigit c = true := by rw [h, hd]
      by_cases hps : st.state = ScanState.pre ∨ st.state = ScanState.sep <;>
        simp [pstepExc, pstep, hsuf, hd, hpd, pyIntOfChar, hps]
    | false =>
      have hpd : pyIsDigit c = false := by rw [h, hd]
      by_cases hsep : c = '/' ∨ c = '-' <;>
        by_cases hnum : st.state = ScanState.num <;>
          simp [pstepExc, pstep, hsuf, hd, hpd, hsep, hnum]

theorem foldExc_eq_foldl (cs : List Char) :
    ∀ st : ParseSt, (∀ c ∈ cs, pyIsDigit c = c.isDigit) →
      foldExc st cs = Except.ok (cs.foldl pstep st) := by
  induction cs with
  | nil => intro st _; rfl
  | cons c t ih =>
    intro st h
    rw [List.foldl_cons]
    have h1 := pstepExc_eq_pstep st c (h c (List.mem_cons_self c t))
    have h2 := ih (pstep st c) (fun d hd => h d (List.mem_cons_of_mem c hd))
    simp [foldExc, h1, h2]

/-- C4 (amended): the empty input yields the three-field `(None, None,
None)` tuple; on every input whose characters classify identically under
`str.isdigit` and the decimal-digit test — in particular, containing no
non-decimal digit-class character like the superscript two — the parser
does not raise, agrees with the total scanner, and returns the four-field
`NormalizedRange` shape when the input is non-empty. -/
theorem claim4_amended (s : String) :
    (s.data.length = 0 →
      extract_issue_numbers_exc s = Except.ok (ExtractResult.triple none none none)) ∧
    ((∀ c ∈ s.data, pyIsDigit c = c.isDigit) →
      extract_issue_numbers_exc s = Except.ok (extract_issue_numbers s) ∧
      (s.data.length ≠ 0 → ∃ mn mx : Option Nat, ∃ b : Bool, ∃ suf : String,
        extract_issue_numbers_exc s = Except.ok (ExtractResult.quad mn mx b suf))) := by
  constructor
  · intro h
    unfold extract_issue_numbers_exc
    rw [if_pos h]
  · intro h
    by_cases h0 : s.data.length = 0
    · constructor
      · unfold extract_issue_numbers_exc extract_issue_numbers
        rw [if_pos h0, if_pos h0]
      · intro hne
        exact absurd h0 hne
    · have hq : extract_issue_numbers_exc s =
          Except.ok (ExtractResult.quad (runScan s).mn (runScan s).mx (runScan s).inv
            (pyStrip (runScan s).suffix)) := by
        unfold extract_issue_numbers_exc
        rw [if_neg h0, foldExc_eq_foldl s.data initSt h]
        rfl
      constructor
      · rw [hq, extract_eq_quad s h0]
      · intro _
        exact ⟨(runScan s).mn, (runScan s).mx, (runScan s).inv,
          pyStrip (runScan s).suffix, hq⟩

/-- C4 (witness): the amended claim applied at `""` and at `"ab"`. -/
theorem claim4_witness :
    extract_issue_numbers_exc "" = Except.ok (ExtractResult.triple none none none) ∧
    (∃ mn mx : Option Nat, ∃ b : Bool, ∃ suf : String,
      extract_issue_numbers_exc "ab" = Except.ok (ExtractResult.quad mn mx b suf)) :=
  ⟨(claim4_amended "").1 rfl, ((claim4_amended "ab").2 (by decide)).2 (by decide)⟩

theorem pstep_pre_nondigit (c : Char) (h : c.isDigit = false) : pstep initSt c = initSt := by
  by_cases hsep : c = '/' ∨ c = '-' <;> simp [pstep, initSt, h, hsep]

theorem foldl_pstep_nondigit (cs : List Char) (h : ∀ c ∈ cs, c.isDigit = false) :
    cs.foldl pstep initSt = initSt := by
  induction cs with
  | nil => rfl
  | cons c t ih =>
    rw [List.foldl_cons, pstep_pre_nondigit c (h c (List.mem_cons_self c t))]
    exact ih (fun d hd => h d (List.mem_cons_of_mem c hd))

/-- C6: for every non-empty input with no digit characters, parse returns
`min = None`, `max = None`, `inverted = False`, and the captured suffix text
— which is empty, because suffix capture only starts after a number run was
closed and no number run ever starts without a digit. -/
theorem claim6_no_digits (s : String) (h0 : s.data ≠ [])
    (h : ∀ c ∈ s.data, c.isDigit = false) :
    extract_issue_numbers s = ExtractResult.quad none none false "" := by
  have hne : s.data.length ≠ 0 := by
    intro hl
    exact h0 (List.length_eq_zero.mp hl)
  rw [extract_eq_quad s hne]
  unfold runScan
  rw [foldl_pstep_nondigit s.data h]
  rfl

/-- C6 (witness): the digit-free input `"abc"`. -/
theorem claim6_witness :
    extract_issue_numbers "abc" = ExtractResult.quad none none false "" :=
  claim6_no_digits "abc" (by decide) (by decide)

/-- C7: whenever the parse result carries both `min` and `max`, `min <= max`
holds and `min`/`max` are the true numeric minimum and maximum of all closed
number runs of the input, independent of the order in which the runs appear
and of the number of separators. -/
theorem claim7_min_max (s : String) (mn mx : Nat) (b : Bool) (suf : String)
    (h : extract_issue_numbers s = ExtractResult.quad (some mn) (some mx) b suf) :
    mn ≤ mx ∧ mn ∈ closedNumbers s ∧ mx ∈ closedNumbers s ∧
    ∀ x ∈ closedNumbers s, mn ≤ x ∧ x ≤ mx := by
  have hne := extract_nonempty_of_quad s (some mn) (some mx) b suf h
  rw [extract_eq_quad s hne] at h
  injection h with h1 h2 h3 h4
  have hi := runScan_minv s
  have hmin : listMin (closedNumbers s) = some mn := by rw [← hi.1, h1]
  have hmax : listMax (closedNumbers s) = some mx := by rw [← hi.2.1, h2]
  obtain ⟨hminMem, hminLe⟩ := listMin_spec _ _ hmin
  obtain ⟨hmaxMem, hmaxGe⟩ := listMax_spec _ _ hmax
  exact ⟨hmaxGe mn hminMem, hminMem, hmaxMem, fun x hx => ⟨hminLe x hx, hmaxGe x hx⟩⟩

/-- C7 (witness): the input `"5-6 ter"`, whose closed runs are `[5, 6]`. -/
theorem claim7_witness :
    5 ≤ 6 ∧ 5 ∈ closedNumbers "5-6 ter" ∧ 6 ∈ closedNumbers "5-6 ter" ∧
    ∀ x ∈ closedNumbers "5-6 ter", 5 ≤ x ∧ x ≤ 6 :=
  claim7_min_max "5-6 ter" 5 6 false "ter" (by decide)

/-- C8: with at least two closed number runs, the `inverted` flag is true
exactly when the last closed value is strictly smaller than the immediately
preceding closed value (only the most recent pairwise comparison survives);
in particular `parse("13/12") = (12, 13, True, "")`. -/
theorem claim8_inverted :
    (∀ (s : String) (mn mx : Option Nat) (b : Bool) (suf : String),
      extract_issue_numbers s = ExtractResult.quad mn mx b suf →
      2 ≤ (closedNumbers s).length →
      (b = true ↔
        (closedNumbers s).getLastD 0 < (closedNumbers s).dropLast.getLastD 0)) ∧
    extract_issue_numbers "13/12" = ExtractResult.quad (some 12) (some 13) true "" := by
  constructor
  · intro s mn mx b suf h _
    have hne := extract_nonempty_of_quad s mn mx b suf h
    rw [extract_eq_quad s hne] at h
    injection h with h1 h2 h3 h4
    have hi := (runScan_minv s).2.2.2
    rw [h3.symm.trans hi]
    unfold invOf
    exact decide_eq_true_iff
  · decide

/-- C8 (witness): the general statement applied at `"13/12"`, whose closed
runs are `[13, 12]`. -/
theorem claim8_witness :
    true = true ↔
      (closedNumbers "13/12").getLastD 0 < (closedNumbers "13/12").dropLast.getLastD 0 :=
  claim8_inverted.1 "13/12" (some 12) (some 13) true "" (by decide) (by decide)

/-! ## Claims about range expansion and gap detection -/

/-- C2 (counterexample): a yearly rule with every bound open, expanded
against an empty issue collection, makes the code crash with the builtin
empty-sequence error (`ValueError` from `min()`), which is not the
specification's `ConfigurationError`. -/
theorem claim2_counterexample :
    get_all_issues_for_numbering nbC2x [] = Except.error PyError.valueError ∧
    PyError.valueError ≠ PyError.configurationError := by
  exact ⟨rfl, by decide⟩

/-- C2 (amended): for every rule with an open bound used by its mode,
evaluated against an empty `currentIssues` collection, range expansion
raises the builtin empty-sequence `ValueError` from the extremum
computation; it does not substitute a default, but neither does it signal a
dedicated `ConfigurationError`. -/
theorem claim2_amended (nb : Numbering)
    (h : (nb.is_yearly = true ∧ (nb.from_year = none ∨ nb.to_year = none)) ∨
         (nb.is_yearly = false ∧ (nb.from_number = none ∨ nb.to_number = none))) :
    get_all_issues_for_numbering nb [] = Except.error PyError.valueError := by
  rcases h with ⟨hy, hb⟩ | ⟨hy, hb⟩
  · rcases hb with hb | hb
    · simp [get_all_issues_for_numbering, hy, yearlyFromYear, hb, _get_min_year]
    · cases hfy : nb.from_year with
      | none => simp [get_all_issues_for_numbering, hy, yearlyFromYear, hfy, _get_min_year]
      | some y =>
        simp [get_all_issues_for_numbering, hy, yearlyFromYear, yearlyToYear, hfy, hb,
          _get_max_year]
  · rcases hb with hb | hb
    · simp [get_all_issues_for_numbering, hy, contFromNumber, hb, _get_min_number]
    · cases hfn : nb.from_number with
      | none => simp [get_all_issues_for_numbering, hy, contFromNumber, hfn, _get_min_number]
      | some n =>
        simp [get_all_issues_for_numbering, hy, contFromNumber, contToNumber, hfn, hb,
          _get_max_number]

/-- C2 (witness): the amended claim applied to a yearly rule whose
`from_year` is open. -/
theorem claim2_witness :
    get_all_issues_for_numbering nbC2 [] = Except.error PyError.valueError :=
  claim2_amended nbC2 (Or.inl ⟨rfl, Or.inl rfl⟩)

/-- C3 (counterexample): on a magazine whose first rule expands to a
non-empty gap list and whose second rule fails, `get_missing_numbers`
returns only the propagated error — the first rule's gaps are not
returned and no per-rule failure indication exists. -/
theorem claim3_counterexample :
    get_missing_numbers magC3 = Except.error PyError.valueError ∧
    _get_missing_numbers magC3 nbC3good =
      Except.ok [((some 2020 : Option Int), (1 : Int)), (some 2020, 2)] ∧
    _get_missing_numbers magC3 nbC3bad = Except.error PyError.valueError := by
  exact ⟨rfl, rfl, rfl⟩

theorem missingLoop_append_error (mag : Magazine) (nb : Numbering) (rest : List Numbering)
    (e : PyError) :
    ∀ pre : List Numbering,
      (∀ r ∈ pre, ∃ l, _get_missing_numbers mag r = Except.ok l) →
      _get_missing_numbers mag nb = Except.error e →
      missingLoop mag (pre ++ nb :: rest) = Except.error e := by
  intro pre
  induction pre with
  | nil =>
    intro _ hbad
    simp [missingLoop, hbad]
  | cons r pre ih =>
    intro hok hbad
    obtain ⟨l, hl⟩ := hok r (List.mem_cons_self r pre)
    have htail := ih (fun q hq => hok q (List.mem_cons_of_mem r hq)) hbad
    simp [missingLoop, hl, htail]

/-- C3 (amended): an exception raised by range expansion for one rule
propagates out of `get_missing_numbers` and aborts the whole computation:
whatever gap lists the earlier rules would produce are discarded and the
caller receives only the error. -/
theorem claim3_amended (mag : Magazine) (pre rest : List Numbering) (nb : Numbering)
    (e : PyError) (hsplit : mag.numberings = pre ++ nb :: rest)
    (hok : ∀ r ∈ pre, ∃ l, _get_missing_numbers mag r = Except.ok l)
    (hbad : _get_missing_numbers mag nb = Except.error e) :
    get_missing_numbers mag = Except.error e := by
  unfold get_missing_numbers
  rw [hsplit]
  exact missingLoop_append_error mag nb rest e pre hok hbad

/-- C3 (witness): the amended claim applied to `magC3`, whose first rule
succeeds and whose second rule raises. -/
theorem claim3_witness : get_missing_numbers magC3 = Except.error PyError.valueError :=
  claim3_amended magC3 [nbC3good] [] nbC3bad PyError.valueError rfl
    (fun r hr => by
      rw [List.mem_singleton] at hr
      subst hr
      exact ⟨[((some 2020 : Option Int), (1 : Int)), (some 2020, 2)], rfl⟩)
    rfl

theorem containsPred_iff (issue : Issue) (year : Option Int) (number : Int) :
    containsPred year number issue = true ↔
      ∃ mn mx : Int, issue.num_min = some mn ∧ issue.num_max = some mx ∧
        mn ≤ number ∧ number ≤ mx ∧ (issue.year = year ∨ year = none) := by
  unfold containsPred
  cases hmn : issue.num_min with
  | none => simp
  | some mn =>
    cases hmx : issue.num_max with
    | none => simp
    | some mx =>
      cases year with
      | none => simp
      | some y => simp [and_assoc]

/-- C5 (counterexample): containment is checked against the year-filtered
current issues, not against every issue of the magazine.  Under the
continuous 2020-only rule `nbC5x`, the magazine's year-2019 issue with range
`5..5` satisfies the claim's magazine-wide condition for the expected pair
`(None, 5)` (the pair's year is `None`), yet the code reports `(None, 5)`
missing, because the year filter excludes that issue before containment is
tested. -/
theorem claim5_counterexample :
    _get_missing_numbers magC5x nbC5x =
      Except.ok [((none : Option Int), (1 : Int)), (none, 2), (none, 3), (none, 4),
        (none, 5), (none, 6), (none, 7), (none, 8), (none, 9), (none, 10)] ∧
    ((none : Option Int), (5 : Int)) ∈
      [((none : Option Int), (1 : Int)), (none, 2), (none, 3), (none, 4),
        (none, 5), (none, 6), (none, 7), (none, 8), (none, 9), (none, 10)] ∧
    _contains_issue magC5x.issues none 5 = true := by
  exact ⟨rfl, by decide, rfl⟩

/-- C5 (amended): an expected pair `(year, number)` is contained if and only
if some issue among the rule's year-filtered current issues — not the whole
magazine — has both range bounds present with `min <= number <= max` and
(`issue.year == year` or `year is None`); and `_get_missing_numbers` keeps
exactly the expected pairs that are not contained in the current issues.  An
issue with either bound missing never witnesses containment. -/
theorem claim5_containment :
    (∀ (issues : List Issue) (year : Option Int) (number : Int),
      _contains_issue issues year number = true ↔
        ∃ issue, issue ∈ issues ∧ ∃ mn mx : Int,
          issue.num_min = some mn ∧ issue.num_max = some mx ∧
          mn ≤ number ∧ number ≤ mx ∧ (issue.year = year ∨ year = none)) ∧
    (∀ (mag : Magazine) (nb : Numbering) (current : List Issue)
        (allNums res : List (Option Int × Int)),
      get_current_issues_for_numbering mag nb = Except.ok current →
      get_all_issues_for_numbering nb current = Except.ok allNums →
      _get_missing_numbers mag nb = Except.ok res →
      ∀ p : Option Int × Int,
        p ∈ res ↔ p ∈ allNums ∧ _contains_issue current p.1 p.2 = false) := by
  constructor
  · intro issues year number
    unfold _contains_issue
    rw [List.any_eq_true]
    constructor
    · rintro ⟨issue, hmem, hp⟩
      exact ⟨issue, hmem, (containsPred_iff issue year number).mp hp⟩
    · rintro ⟨issue, hmem, hp⟩
      exact ⟨issue, hmem, (containsPred_iff issue year number).mpr hp⟩
  · intro mag nb current allNums res h1 h2 h3 p
    unfold _get_missing_numbers at h3
    rw [h1] at h3
    simp only [] at h3
    rw [h2] at h3
    simp only [Except.ok.injEq] at h3
    subst h3
    rw [List.mem_filter]
    simp [Bool.not_eq_true']

/-- C5 (witness): an issue with range `5..6` in year 2020 contains `(2020,
5)`; on the concrete magazine `magC5` the missing list is exactly the
expected list minus the contained pairs. -/
theorem claim5_witness :
    _contains_issue [iC5] (some 2020) 5 = true ∧
    (((some 2020 : Option Int), (7 : Int)) ∈
        [((some 2020 : Option Int), (1 : Int)), (some 2020, 2), (some 2020, 3),
          (some 2020, 4), (some 2020, 7), (some 2020, 8), (some 2020, 9),
          (some 2020, 10), (some 2020, 11), (some 2020, 12)] ↔
      ((some 2020 : Option Int), (7 : Int)) ∈
        [((some 2020 : Option Int), (1 : Int)), (some 2020, 2), (some 2020, 3),
          (some 2020, 4), (some 2020, 5), (some 2020, 6), (some 2020, 7),
          (some 2020, 8), (some 2020, 9), (some 2020, 10), (some 2020, 11),
          (some 2020, 12)] ∧
      _contains_issue [iC5] (some 2020) 7 = false) :=
  ⟨(claim5_containment.1 [iC5] (some 2020) 5).mpr
      ⟨iC5, List.mem_singleton.mpr rfl, 5, 6, rfl, rfl, by decide, by decide, Or.inl rfl⟩,
   claim5_containment.2 magC5 nbC5 [iC5]
      [((some 2020 : Option Int), (1 : Int)), (some 2020, 2), (some 2020, 3),
        (some 2020, 4), (some 2020, 5), (some 2020, 6), (some 2020, 7),
        (some 2020, 8), (some 2020, 9), (some 2020, 10), (some 2020, 11),
        (some 2020, 12)]
      [((some 2020 : Option Int), (1 : Int)), (some 2020, 2), (some 2020, 3),
        (some 2020, 4), (some 2020, 7), (some 2020, 8), (some 2020, 9),
        (some 2020, 10), (some 2020, 11), (some 2020, 12)]
      rfl rfl rfl ((some 2020 : Option Int), (7 : Int))⟩

theorem intRange_mem (lo hi x : Int) : x ∈ intRange lo hi ↔ lo ≤ x ∧ x < hi := by
  unfold intRange
  rw [List.mem_map]
  constructor
  · rintro ⟨i, hi, rfl⟩
    rw [List.mem_range] at hi
    omega
  · rintro ⟨h1, h2⟩
    refine ⟨(x - lo).toNat, ?_, ?_⟩
    · rw [List.mem_range]; omega
    · omega

/-- C9: in yearly mode with resolved year bounds `fy`/`ty`, the expected set
is the list of pairs `(year, number)` for `year` from `fy` to `ty` and
`number` from `from_number or 1` to `to_number or 12`, inclusive, generated
year-major and number-minor, and a pair occurs in it exactly when both
coordinates lie in those inclusive bounds; concretely, the rule
`(2020..2021, yearly, 1..12)` on a magazine with zero issues yields exactly
the 24 ordered missing pairs `(2020,1)..(2021,12)`. -/
theorem claim9_yearly :
    (∀ (nb : Numbering) (current : List Issue) (fy ty : Int),
      nb.is_yearly = true →
      yearlyFromYear nb current = Except.ok (some fy) →
      yearlyToYear nb current = Except.ok (some ty) →
      get_all_issues_for_numbering nb current =
        Except.ok ((intRange fy (ty + 1)).flatMap (fun y =>
          (intRange (nb.from_number.getD 1) (nb.to_number.getD 12 + 1)).map
            (fun n => (some y, n)))) ∧
      ∀ (y n : Int),
        ((some y : Option Int), n) ∈
            (intRange fy (ty + 1)).flatMap (fun y2 =>
              (intRange (nb.from_number.getD 1) (nb.to_number.getD 12 + 1)).map
                (fun n2 => (some y2, n2))) ↔
          fy ≤ y ∧ y ≤ ty ∧ nb.from_number.getD 1 ≤ n ∧ n ≤ nb.to_number.getD 12) ∧
    _get_missing_numbers magC9 nbC9 =
      Except.ok [((some 2020 : Option Int), (1 : Int)), (some 2020, 2), (some 2020, 3),
        (some 2020, 4), (some 2020, 5), (some 2020, 6), (some 2020, 7), (some 2020, 8),
        (some 2020, 9), (some 2020, 10), (some 2020, 11), (some 2020, 12),
        (some 2021, 1), (some 2021, 2), (some 2021, 3), (some 2021, 4), (some 2021, 5),
        (some 2021, 6), (some 2021, 7), (some 2021, 8), (some 2021, 9), (some 2021, 10),
        (some 2021, 11), (some 2021, 12)] := by
  constructor
  · intro nb current fy ty hy hfy hty
    constructor
    · simp [get_all_issues_for_numbering, hy, hfy, hty]
    · intro y n
      rw [List.mem_flatMap]
      constructor
      · rintro ⟨y2, hy2, hmem⟩
        rw [List.mem_map] at hmem
        obtain ⟨n2, hn2, heq⟩ := hmem
        rw [Prod.mk.injEq, Option.some.injEq] at heq
        obtain ⟨rfl, rfl⟩ := heq
        rw [intRange_mem] at hy2 hn2
        exact ⟨hy2.1, by omega, hn2.1, by omega⟩
      · rintro ⟨h1, h2, h3, h4⟩
        refine ⟨y, ?_, ?_⟩
        · rw [intRange_mem]; omega
        · rw [List.mem_map]
          exact ⟨n, by rw [intRange_mem]; omega, rfl⟩
  · rfl

/-- C9 (witness): the general statement applied to the concrete rule
`nbC9 = (2020..2021, yearly, 1..12)` against zero issues. -/
theorem claim9_witness :
    get_all_issues_for_numbering nbC9 [] =
      Except.ok ((intRange 2020 (2021 + 1)).flatMap (fun y =>
        (intRange (nbC9.from_number.getD 1) (nbC9.to_number.getD 12 + 1)).map
          (fun n => (some y, n)))) :=
  (claim9_yearly.1 nbC9 [] 2020 2021 rfl rfl rfl).1

theorem check_year_none_err (fy ty : Option Int) (h : fy ≠ none ∨ ty ≠ none) :
    _check_year_in_interval none fy ty = Except.error PyError.typeError := by
  cases fy with
  | some a => rfl
  | none =>
    cases ty with
    | some b => rfl
    | none => rcases h with h | h <;> exact absurd rfl h

theorem check_year_some_ok (y : Int) (fy ty : Option Int) :
    ∃ b, _check_year_in_interval (some y) fy ty = Except.ok b := by
  cases fy with
  | none =>
    cases ty with
    | none => exact ⟨true, rfl⟩
    | some b => exact ⟨decide (y ≤ b), rfl⟩
  | some a =>
    by_cases hya : y ≥ a
    · cases ty with
      | none => exact ⟨true, by simp [_check_year_in_interval, hya]⟩
      | some b => exact ⟨decide (y ≤ b), by simp [_check_year_in_interval, hya]⟩
    · exact ⟨false, by simp [_check_year_in_interval, hya]⟩

theorem filterIssues_err (fy ty : Option Int) (hb : fy ≠ none ∨ ty ≠ none) :
    ∀ issues : List Issue, (∃ i ∈ issues, i.year = none) →
      filterIssuesLoop fy ty issues = Except.error PyError.typeError := by
  intro issues
  induction issues with
  | nil =>
    rintro ⟨i, hi, _⟩
    cases hi
  | cons j rest ih =>
    rintro ⟨i, hi, hyr⟩
    cases hjy : j.year with
    | none => simp [filterIssuesLoop, hjy, check_year_none_err fy ty hb]
    | some y =>
      obtain ⟨b, hb2⟩ := check_year_some_ok y fy ty
      have hex : ∃ i ∈ rest, i.year = none := by
        rcases List.mem_cons.mp hi with rfl | hmem
        · rw [hjy] at hyr
          exact Option.noConfusion hyr
        · exact ⟨i, hmem, hyr⟩
      have htail := ih hex
      simp [filterIssuesLoop, hjy, hb2, htail]

theorem filterIssues_open (issues : List Issue) :
    filterIssuesLoop none none issues = Except.ok issues := by
  induction issues with
  | nil => rfl
  | cons j rest ih => simp [filterIssuesLoop, _check_year_in_interval, ih]

/-- C10: if a rule has `from_year` or `to_year` set and the magazine owns an
issue with `year = None`, the year-filtered accessor raises `TypeError`
(comparing `None` with an `int`), and so does the gap computation that
evaluates that rule; when both year bounds are open the filter tolerates
`year = None` issues and returns all issues. -/
theorem claim10_year_none :
    (∀ (mag : Magazine) (nb : Numbering),
      (nb.from_year ≠ none ∨ nb.to_year ≠ none) →
      (∃ i ∈ mag.issues, i.year = none) →
      get_current_issues_for_numbering mag nb = Except.error PyError.typeError ∧
      _get_missing_numbers mag nb = Except.error PyError.typeError) ∧
    (∀ (mag : Magazine) (nb : Numbering),
      nb.from_year = none → nb.to_year = none →
      get_current_issues_for_numbering mag nb = Except.ok mag.issues) := by
  constructor
  · intro mag nb hb hex
    have h1 : get_current_issues_for_numbering mag nb = Except.error PyError.typeError :=
      filterIssues_err nb.from_year nb.to_year hb mag.issues hex
    refine ⟨h1, ?_⟩
    unfold _get_missing_numbers
    rw [h1]
  · intro mag nb h1 h2
    unfold get_current_issues_for_numbering
    rw [h1, h2]
    exact filterIssues_open mag.issues

/-- C10 (witness): the concrete magazine `magC10` owning a `year = NULL`
issue, with the rule `nbC10` (`from_year` set) and the all-open rule
`nbC10open`. -/
theorem claim10_witness :
    get_current_issues_for_numbering magC10 nbC10 = Except.error PyError.typeError ∧
    _get_missing_numbers magC10 nbC10 = Except.error PyError.typeError ∧
    get_current_issues_for_numbering magC10 nbC10open = Except.ok magC10.issues :=
  ⟨(claim10_year_none.1 magC10 nbC10 (Or.inl (by decide))
      ⟨iC10, List.mem_singleton.mpr rfl, rfl⟩).1,
   (claim10_year_none.1 magC10 nbC10 (Or.inl (by decide))
      ⟨iC10, List.mem_singleton.mpr rfl, rfl⟩).2,
   claim10_year_none.2 magC10 nbC10open rfl rfl⟩
